import Mathlib

/-!
Shallow embedding of the banking notification service core
(NotificationRouter, RateLimiter, DeduplicationService, RetryService,
DigestService, UserPreferences, SMSHandler) and proofs about the
specification claims.

Modelling conventions:
* JavaScript strings used as message text are modelled as `List Char`
  (one element per UTF-16 code unit of the source string); Redis keys and
  identifiers are modelled as Lean `String`.
* `Date.now()` instants are naturals in milliseconds; Redis clock values
  used by the dedup TTL logic are naturals in seconds.
* The Redis key space is modelled as total functions `String → Nat`
  (counter value, absent key read as 0, matching `tonumber(... or '0')`)
  and `String → Int` (TTL of a key, as returned by the TTL command).
* Provider adapters, the preference store and the email send outcome are
  inputs (oracles) of the functions that consume them, mirroring the
  injected singletons of the source.
-/

-- ==================== Core enumerations (src/types, channels/index.ts) ====================

inductive Channel
  | websocket
  | sms
  | email
  | push
deriving DecidableEq, Repr

inductive Priority
  | low
  | medium
  | high
  | critical
deriving DecidableEq, Repr

inductive DeliveryStatus
  | pending
  | sent
  | delivered
  | failed
  | retrying
  | rate_limited
  | queued_for_digest
deriving DecidableEq, Repr

inductive DigestFrequency
  | immediate
  | hourly
  | daily
  | weekly
deriving DecidableEq, Repr

inductive EventType
  | transfer_initiated
  | transfer_processing
  | transfer_approved
  | transfer_rejected
  | transfer_completed
  | transfer_failed
  | login_attempt
  | login_failed
  | account_locked
  | password_changed
  | new_device_added
  | suspicious_activity
  | fraud_detected
  | low_balance_alert
  | large_transaction
  | recurring_payment_due
  | account_statement_ready
  | promotional_offer
  | kyc_verification_needed
  | regulatory_alert
  | data_access_logged
  | session_expired
  | general_notification
deriving DecidableEq, Repr

structure EventTypeConfig where
  defaultChannels : List Channel
  priority : Priority
  bypassQuietHours : Bool
  allowDigest : Bool
  dedupWindowMs : Nat
deriving DecidableEq, Repr

/-- `EVENT_TYPE_CONFIGS` from src/types (channels/index.ts part): the static
event-kind catalog. -/
def EVENT_TYPE_CONFIGS : EventType → EventTypeConfig
  | .transfer_initiated =>
      ⟨[.websocket], .low, false, true, 300000⟩
  | .transfer_processing =>
      ⟨[.websocket], .low, false, true, 300000⟩
  | .transfer_approved =>
      ⟨[.websocket, .push], .medium, false, false, 300000⟩
  | .transfer_rejected =>
      ⟨[.websocket, .sms, .email], .high, false, false, 300000⟩
  | .transfer_completed =>
      ⟨[.websocket, .push], .high, false, false, 300000⟩
  | .transfer_failed =>
      ⟨[.websocket, .email], .high, false, false, 300000⟩
  | .login_attempt =>
      ⟨[.email], .medium, false, true, 300000⟩
  | .login_failed =>
      ⟨[.sms, .email], .high, false, false, 60000⟩
  | .account_locked =>
      ⟨[.sms, .websocket], .critical, true, false, 0⟩
  | .password_changed =>
      ⟨[.email], .medium, false, false, 0⟩
  | .new_device_added =>
      ⟨[.email], .low, false, true, 300000⟩
  | .suspicious_activity =>
      ⟨[.sms, .websocket], .critical, true, false, 0⟩
  | .fraud_detected =>
      ⟨[.sms, .websocket, .push], .critical, true, false, 0⟩
  | .low_balance_alert =>
      ⟨[.email, .push], .low, false, true, 86400000⟩
  | .large_transaction =>
      ⟨[.sms, .email], .medium, false, false, 300000⟩
  | .recurring_payment_due =>
      ⟨[.email, .push], .low, false, true, 86400000⟩
  | .account_statement_ready =>
      ⟨[.email], .low, false, true, 86400000⟩
  | .promotional_offer =>
      ⟨[.email], .low, false, true, 86400000⟩
  | .kyc_verification_needed =>
      ⟨[.sms, .email], .critical, false, false, 86400000⟩
  | .regulatory_alert =>
      ⟨[.email], .critical, false, false, 0⟩
  | .data_access_logged =>
      ⟨[.email], .low, false, true, 300000⟩
  | .session_expired =>
      ⟨[.websocket], .low, false, false, 300000⟩
  | .general_notification =>
      ⟨[.websocket], .low, false, true, 300000⟩

-- ==================== SMSHandler.formatMessage (src/channels/SMSHandler.ts) ====================

/-- The unsubscribe suffix appended by `SMSHandler.formatMessage`:
the source string "\nReply STOP to unsubscribe." (27 code units). -/
def smsUnsubscribe : List Char := '\n' :: "Reply STOP to unsubscribe.".data

/-- `SMSHandler.formatMessage`: builds `title ++ ": " ++ message`, and if the
combined text exceeds `160 - unsubscribe.length` code units it truncates it
to leave room for "..." before appending the unsubscribe suffix.
JS `s.substring(0, n)` is `List.take n`. -/
def formatMessage (title message : List Char) : List Char :=
  let msg := title ++ ':' :: ' ' :: message
  let maxLength := 160 - smsUnsubscribe.length
  if msg.length > maxLength then
    (msg.take (maxLength - 3) ++ "...".data) ++ smsUnsubscribe
  else
    msg ++ smsUnsubscribe

-- ==================== UserPreferences (src/models/mongodb/UserPreferences.ts) ====================

structure PushDevice where
  deviceId : String
  token : String
  platform : String
deriving DecidableEq, Repr

/-- Per-event-type preference entry (`NotificationTypePreferenceSchema`). -/
structure TypePref where
  enabled : Bool
  channels : List Channel
  quietHoursOverride : Bool
deriving DecidableEq, Repr

/-- Quiet-hours window (`QuietHoursSchema`). `start`/`stop` model the
"HH:MM" strings as minutes of the day (lexicographic order on zero-padded
"HH:MM" strings coincides with numeric order on minutes). `timezone`
models the IANA zone string by its UTC offset in minutes (mod 1440). -/
structure QuietHours where
  enabled : Bool
  start : Nat
  stop : Nat
  timezone : Nat
  criticalAlertsBypass : Bool
deriving DecidableEq, Repr

structure UserRateLimits where
  smsPerHour : Nat
  smsPerDay : Nat
  emailPerHour : Nat
  emailPerDay : Nat
  pushPerHour : Nat
  pushPerDay : Nat
deriving DecidableEq, Repr

/-- User preferences document. Encrypted contact fields are modelled by the
`Option` of their decrypted plaintext (`getDecryptedPhoneNumber` /
`getDecryptedEmail` return `null` when absent or undecryptable, `none`
here). `verifiedAt` timestamps are kept only as presence. -/
structure UserPrefs where
  userId : String
  websocketEnabled : Bool
  smsEnabled : Bool
  smsPhoneNumber : Option String
  smsVerifiedAt : Option Nat
  emailEnabled : Bool
  emailAddress : Option String
  emailVerifiedAt : Option Nat
  digestEnabled : Bool
  digestFrequency : DigestFrequency
  digestTime : Nat
  pushEnabled : Bool
  pushDevices : List PushDevice
  notificationTypes : EventType → Option TypePref
  quietHours : QuietHours
  rateLimits : UserRateLimits
  doNotContact : Bool

/-- `isChannelEnabled`: do-not-contact forces false; otherwise the
channel's enabled flag. -/
def isChannelEnabled (p : UserPrefs) (c : Channel) : Bool :=
  if p.doNotContact then false
  else
    match c with
    | .websocket => p.websocketEnabled
    | .sms => p.smsEnabled
    | .email => p.emailEnabled
    | .push => p.pushEnabled

/-- `getEnabledChannelsForEvent`: the per-kind override channels when set
and non-empty, else the defaults, filtered by `isChannelEnabled`; empty
when do-not-contact is on or the kind is disabled for the user. -/
def getEnabledChannelsForEvent (p : UserPrefs) (et : EventType)
    (defaultChannels : List Channel) : List Channel :=
  if p.doNotContact then []
  else
    match p.notificationTypes et with
    | some prefs =>
        if prefs.enabled = false then []
        else
          let configured := if prefs.channels.length ≠ 0 then prefs.channels else defaultChannels
          configured.filter (fun c => isChannelEnabled p c)
    | none => defaultChannels.filter (fun c => isChannelEnabled p c)

/-- `isInQuietHours` body: given the process-local current time of day
`currentHHMM` (minutes), compares against the window, handling overnight
windows (`start > end`). The window decision itself never consults the
`timezone` field. -/
def isInQuietHoursAt (qh : QuietHours) (currentHHMM : Nat) : Bool :=
  if !qh.enabled then false
  else if qh.start > qh.stop then
    decide (currentHHMM ≥ qh.start) || decide (currentHHMM < qh.stop)
  else
    decide (currentHHMM ≥ qh.start) && decide (currentHHMM < qh.stop)

/-- `new Date(nowMs).toTimeString().slice(0, 5)` as minutes of the day:
the instant shifted by the PROCESS timezone offset, not the user's. -/
def processLocalMinutes (nowMs processOffsetMin : Nat) : Nat :=
  (nowMs / 60000 + processOffsetMin) % 1440

/-- `isInQuietHours()` as called by the router: resolves "now" with the
process-local clock (`new Date()`), ignoring `quietHours.timezone`. -/
def isInQuietHours (p : UserPrefs) (nowMs processOffsetMin : Nat) : Bool :=
  isInQuietHoursAt p.quietHours (processLocalMinutes nowMs processOffsetMin)

/-- Modelled from the spec: "All quiet-hours and digest-time decisions
happen in the user's configured timezone ... they must resolve now in the
user's zone." Same window logic, but the time of day is the instant
converted with the user's configured `timezone` offset. -/
def isInQuietHoursSpec (p : UserPrefs) (nowMs : Nat) : Bool :=
  isInQuietHoursAt p.quietHours ((nowMs / 60000 + p.quietHours.timezone) % 1440)

/-- `shouldBypassQuietHours`: the per-kind override if set, else the
global `criticalAlertsBypass` flag (mongoose default `true`). -/
def shouldBypassQuietHours (p : UserPrefs) (et : EventType) : Bool :=
  match p.notificationTypes et with
  | some prefs => if prefs.quietHoursOverride then true else p.quietHours.criticalAlertsBypass
  | none => p.quietHours.criticalAlertsBypass

-- ==================== Redis key builders (src/redis/client.ts) ====================

def RATE_LIMIT_SMS_HOUR (userId : String) : String := "ratelimit:sms:hour:" ++ userId
def RATE_LIMIT_SMS_DAY (userId : String) : String := "ratelimit:sms:day:" ++ userId
def RATE_LIMIT_EMAIL_HOUR (userId : String) : String := "ratelimit:email:hour:" ++ userId
def RATE_LIMIT_EMAIL_DAY (userId : String) : String := "ratelimit:email:day:" ++ userId
def RATE_LIMIT_PUSH_HOUR (userId : String) : String := "ratelimit:push:hour:" ++ userId
def RATE_LIMIT_PUSH_DAY (userId : String) : String := "ratelimit:push:day:" ++ userId

def DEDUP_KEY (userId eventType sourceId : String) : String :=
  "dedup:" ++ userId ++ ":" ++ eventType ++ ":" ++ sourceId

def RATE_LIMIT_HOUR_TTL : Nat := 3600
def RATE_LIMIT_DAY_TTL : Nat := 86400

-- ==================== RateLimiter (src/redis/RateLimiter.ts) ====================

structure RateLimitResult where
  allowed : Bool
  remaining : Int
  limit : Int
  resetAt : Nat
  waitMs : Option Nat
deriving DecidableEq, Repr

/-- The Redis state seen by the rate limiter: counter values (GET, absent
read as 0) and per-key TTLs (TTL command result; EXPIRE overwrites). -/
structure RedisCounters where
  counters : String → Nat
  ttls : String → Int

def bumpCounter (s : RedisCounters) (k : String) : RedisCounters :=
  { s with counters := fun x => if x = k then s.counters k + 1 else s.counters x }

def setTTL (s : RedisCounters) (k : String) (t : Int) : RedisCounters :=
  { s with ttls := fun x => if x = k then t else s.ttls x }

structure ChannelKeys where
  hourKey : String
  dayKey : String
  hourLimit : Nat
  dayLimit : Nat

/-- `getChannelKeys`. The `websocket` case throws in the source and is
unreachable (all callers guard on it); it is mapped to a dummy value. -/
def getChannelKeys (userId : String) (c : Channel) (limits : UserRateLimits) : ChannelKeys :=
  match c with
  | .sms => ⟨RATE_LIMIT_SMS_HOUR userId, RATE_LIMIT_SMS_DAY userId,
             limits.smsPerHour, limits.smsPerDay⟩
  | .email => ⟨RATE_LIMIT_EMAIL_HOUR userId, RATE_LIMIT_EMAIL_DAY userId,
               limits.emailPerHour, limits.emailPerDay⟩
  | .push => ⟨RATE_LIMIT_PUSH_HOUR userId, RATE_LIMIT_PUSH_DAY userId,
              limits.pushPerHour, limits.pushPerDay⟩
  | .websocket => ⟨"", "", 0, 0⟩

/-- The Lua script of `consumeLimit`: atomic check of the hour and day
counters against their caps; if both pass, INCR both and EXPIRE both.
Returns (allowedFlag, remaining-or-count, limit, TTL) and the state. -/
def consumeLua (s : RedisCounters) (k : ChannelKeys) :
    (Nat × Int × Int × Int) × RedisCounters :=
  let hourCount := s.counters k.hourKey
  let dayCount := s.counters k.dayKey
  if hourCount ≥ k.hourLimit then
    ((0, (hourCount : Int), (k.hourLimit : Int), s.ttls k.hourKey), s)
  else if dayCount ≥ k.dayLimit then
    ((0, (dayCount : Int), (k.dayLimit : Int), s.ttls k.dayKey), s)
  else
    let s1 := setTTL (bumpCounter s k.hourKey) k.hourKey (RATE_LIMIT_HOUR_TTL : Int)
    let s2 := setTTL (bumpCounter s1 k.dayKey) k.dayKey (RATE_LIMIT_DAY_TTL : Int)
    let remaining : Int :=
      min ((k.hourLimit : Int) - hourCount - 1) ((k.dayLimit : Int) - dayCount - 1)
    ((1, remaining, (k.hourLimit : Int), s2.ttls k.hourKey), s2)

/-- `RateLimiter.consumeLimit`: websocket is unlimited; otherwise the Lua
script runs, and any store error fails open as allowed (`storeOk = false`
models the catch branch). `resetAt` = now + TTL (default one hour when the
TTL is non-positive). -/
def consumeLimit (storeOk : Bool) (s : RedisCounters) (userId : String)
    (c : Channel) (limits : UserRateLimits) (nowMs : Nat) :
    RateLimitResult × RedisCounters :=
  if c = .websocket then
    ({ allowed := true, remaining := -1, limit := -1, resetAt := nowMs, waitMs := none }, s)
  else if !storeOk then
    ({ allowed := true, remaining := -1, limit := -1, resetAt := nowMs, waitMs := none }, s)
  else
    let k := getChannelKeys userId c limits
    let r := consumeLua s k
    let allowed := r.1.1
    let remaining := r.1.2.1
    let limit := r.1.2.2.1
    let ttl := r.1.2.2.2
    let ttlMs : Nat := if ttl > 0 then ttl.toNat * 1000 else RATE_LIMIT_HOUR_TTL * 1000
    ({ allowed := allowed = 1,
       remaining := remaining,
       limit := limit,
       resetAt := nowMs + ttlMs,
       waitMs := if allowed = 0 then some ttlMs else none }, r.2)

-- ==================== DeduplicationService (src/redis/DeduplicationService.ts) ====================

/-- A dedup entry as stored by SETEX: the JSON blob's notification id and
sent-at, plus the expiry instant implied by the TTL (seconds). -/
structure DedupEntry where
  notificationId : String
  sentAtSec : Nat
  expireAtSec : Nat
deriving DecidableEq, Repr

/-- The dedup key space; GET on an expired key returns nil. -/
def DedupStore := String → Option DedupEntry

def dedupGet (store : DedupStore) (key : String) (nowSec : Nat) : Option DedupEntry :=
  match store key with
  | some e => if nowSec < e.expireAtSec then some e else none
  | none => none

structure DedupResult where
  isDuplicate : Bool
  originalNotificationId : Option String
deriving DecidableEq, Repr

/-- `generateKey`: a missing source id becomes the literal "none". -/
def dedupGenerateKey (userId eventType : String) (sourceId : Option String) : String :=
  DEDUP_KEY userId eventType (sourceId.getD "none")

/-- `checkAndMark`: atomically GET the key, returning the existing entry
as a duplicate, else SETEX (notificationId, now) with TTL
`ceil(windowMs / 1000)`. Store errors (`storeOk = false`) fail open as
not-duplicate; SETEX with TTL 0 raises in Redis, which the catch also
turns into not-duplicate without registering. -/
def checkAndMark (storeOk : Bool) (store : DedupStore) (userId eventType : String)
    (sourceId : Option String) (notificationId : String) (windowMs : Nat)
    (nowSec : Nat) : DedupResult × DedupStore :=
  if !storeOk then ({ isDuplicate := false, originalNotificationId := none }, store)
  else
    let key := dedupGenerateKey userId eventType sourceId
    let ttlSeconds := (windowMs + 999) / 1000
    match dedupGet store key nowSec with
    | some e => ({ isDuplicate := true, originalNotificationId := some e.notificationId }, store)
    | none =>
        if ttlSeconds = 0 then
          ({ isDuplicate := false, originalNotificationId := none }, store)
        else
          ({ isDuplicate := false, originalNotificationId := none },
           fun x => if x = key then
                      some ⟨notificationId, nowSec, nowSec + ttlSeconds⟩
                    else store x)

-- ==================== NotificationRouter (src/services/NotificationRouter.ts) ====================

structure DeliveryResult where
  channel : Channel
  status : DeliveryStatus
  providerMessageId : Option String
  error : Option String
deriving DecidableEq, Repr

structure RouteResult where
  notificationId : String
  userId : String
  eventType : EventType
  results : List DeliveryResult
  skippedChannels : List (Channel × String)
  queued : Bool
  digestQueued : Bool
deriving DecidableEq, Repr

/-- A persisted Delivery Record row (`NotificationEvent.create` fields the
claims observe). -/
structure StoredRecord where
  notificationId : String
  userId : String
  eventType : EventType
  channel : Channel
  deliveryStatus : DeliveryStatus
  providerMessageId : Option String
  errorMessage : Option String
  idempotencyKey : String
deriving DecidableEq, Repr

/-- The shared external state the router mutates: dedup keys, rate
counters, the delivery-record table (append-only log of
`NotificationEvent.create`) and the digest queues keyed by
`digest:{freq}:{user}`. -/
structure SysState where
  dedup : DedupStore
  rate : RedisCounters
  history : List StoredRecord
  digests : String → List String

/-- Environment of one `route` call: clock, process timezone, provider
adapters (an `Except` models a thrown exception), and store availability
flags for the fail-open branches. -/
structure RouteEnv where
  nowMs : Nat
  processOffsetMin : Nat
  adapters : Channel → Except String DeliveryResult
  dedupOk : Bool
  rateOk : Bool

structure NotificationRequest where
  userId : String
  eventType : EventType
  title : List Char
  message : List Char
  eventSourceId : Option String
  priority : Option Priority
  correlationId : Option String

/-- `UserContactInfo` as assembled by `loadUserContactInfo`. -/
structure UserContactInfo where
  phoneNumber : Option String
  phoneVerified : Bool
  email : Option String
  emailVerified : Bool
  pushTokens : Option (List PushDevice)

def loadUserContactInfo (p : UserPrefs) : UserContactInfo :=
  { phoneNumber := p.smsPhoneNumber
    phoneVerified := p.smsPhoneNumber.isSome && p.smsVerifiedAt.isSome
    email := p.emailAddress
    emailVerified := p.emailAddress.isSome && p.emailVerifiedAt.isSome
    pushTokens := if p.pushDevices.length ≠ 0 then some p.pushDevices else none }

/-- `selectChannels`: the user's channels for the kind, with the
critical-priority websocket fallback. -/
def selectChannels (p : UserPrefs) (et : EventType)
    (defaultChannels : List Channel) (priority : Priority) : List Channel :=
  let channels := getEnabledChannelsForEvent p et defaultChannels
  if priority = .critical ∧ channels.length = 0 then
    if isChannelEnabled p .websocket then [.websocket] else channels
  else channels

def eventTypeName : EventType → String
  | .transfer_initiated => "transfer_initiated"
  | .transfer_processing => "transfer_processing"
  | .transfer_approved => "transfer_approved"
  | .transfer_rejected => "transfer_rejected"
  | .transfer_completed => "transfer_completed"
  | .transfer_failed => "transfer_failed"
  | .login_attempt => "login_attempt"
  | .login_failed => "login_failed"
  | .account_locked => "account_locked"
  | .password_changed => "password_changed"
  | .new_device_added => "new_device_added"
  | .suspicious_activity => "suspicious_activity"
  | .fraud_detected => "fraud_detected"
  | .low_balance_alert => "low_balance_alert"
  | .large_transaction => "large_transaction"
  | .recurring_payment_due => "recurring_payment_due"
  | .account_statement_ready => "account_statement_ready"
  | .promotional_offer => "promotional_offer"
  | .kyc_verification_needed => "kyc_verification_needed"
  | .regulatory_alert => "regulatory_alert"
  | .data_access_logged => "data_access_logged"
  | .session_expired => "session_expired"
  | .general_notification => "general_notification"

def channelName : Channel → String
  | .websocket => "websocket"
  | .sms => "sms"
  | .email => "email"
  | .push => "push"

/-- `storeNotification`: appends a Delivery Record with the attempt
outcome (`sentAt` is set only for sent/delivered; not tracked here). -/
def storeNotification (st : SysState) (notificationId userId : String)
    (et : EventType) (sourceId : Option String) (c : Channel)
    (status : DeliveryStatus) (providerMessageId error : Option String) : SysState :=
  { st with history := st.history ++
      [{ notificationId := notificationId
         userId := userId
         eventType := et
         channel := c
         deliveryStatus := status
         providerMessageId := providerMessageId
         errorMessage := error
         idempotencyKey :=
           userId ++ ":" ++ eventTypeName et ++ ":" ++ sourceId.getD "none" ++ ":" ++ channelName c }] }

/-- Accumulator threaded through the per-channel fan-out: the shared
`result.results` / `result.skippedChannels` arrays and the store state. -/
structure FanoutAcc where
  results : List DeliveryResult
  skipped : List (Channel × String)
  st : SysState

/-- The body of `sendToChannel` after the rate-limit gate: precondition
check, adapter invocation, persistence; a thrown adapter error becomes a
failed result and a failed record. -/
def attemptChannel (env : RouteEnv) (notificationId : String)
    (req : NotificationRequest) (contact : UserContactInfo)
    (c : Channel) (acc : FanoutAcc) : FanoutAcc :=
  let deliver (res : Except String DeliveryResult) : FanoutAcc :=
    match res with
    | .ok r =>
        { acc with
          results := acc.results ++ [r]
          st := storeNotification acc.st notificationId req.userId req.eventType
                  req.eventSourceId c r.status r.providerMessageId r.error }
    | .error msg =>
        { acc with
          results := acc.results ++ [⟨c, .failed, none, some msg⟩]
          st := storeNotification acc.st notificationId req.userId req.eventType
                  req.eventSourceId c .failed none (some msg) }
  match c with
  | .websocket => deliver (env.adapters .websocket)
  | .sms =>
      if !(contact.phoneNumber.isSome && contact.phoneVerified) then
        { acc with skipped := acc.skipped ++ [(.sms, "Phone number not verified")] }
      else deliver (env.adapters .sms)
  | .email =>
      if !(contact.email.isSome && contact.emailVerified) then
        { acc with skipped := acc.skipped ++ [(.email, "Email not verified")] }
      else deliver (env.adapters .email)
  | .push =>
      if (contact.pushTokens.getD []).length = 0 then
        { acc with skipped := acc.skipped ++ [(.push, "No push tokens registered")] }
      else deliver (env.adapters .push)

/-- `sendToChannel`: consume the rate budget first; on refusal record a
skip and persist a `rate_limited` record; otherwise run the channel
attempt. -/
def sendToChannel (env : RouteEnv) (notificationId : String)
    (req : NotificationRequest) (p : UserPrefs) (contact : UserContactInfo)
    (c : Channel) (acc : FanoutAcc) : FanoutAcc :=
  let rl := consumeLimit env.rateOk acc.st.rate req.userId c p.rateLimits env.nowMs
  let acc := { acc with st := { acc.st with rate := rl.2 } }
  if !rl.1.allowed then
    { acc with
      skipped := acc.skipped ++
        [(c, "Rate limit exceeded. Resets at " ++ toString rl.1.resetAt)]
      st := storeNotification acc.st notificationId req.userId req.eventType
              req.eventSourceId c .rate_limited none none }
  else
    attemptChannel env notificationId req contact c acc

/-- Steps 3-9 of `route` (after the dedup gate): preference load,
do-not-contact, channel selection, quiet hours, fan-out. -/
def routeRest (env : RouteEnv) (st : SysState) (req : NotificationRequest)
    (notificationId : String) (p : UserPrefs) : RouteResult × SysState :=
  let eventConfig := EVENT_TYPE_CONFIGS req.eventType
  let priority := req.priority.getD eventConfig.priority
  let base : RouteResult :=
    { notificationId := notificationId
      userId := req.userId
      eventType := req.eventType
      results := []
      skippedChannels := []
      queued := false
      digestQueued := false }
  if p.doNotContact then
    ({ base with skippedChannels := [(.websocket, "User has opted out of notifications")] }, st)
  else
    let channels := selectChannels p req.eventType eventConfig.defaultChannels priority
    let inQuietHours := isInQuietHours p env.nowMs env.processOffsetMin
    let bypassQuietHours := eventConfig.bypassQuietHours ||
      shouldBypassQuietHours p req.eventType || decide (priority = .critical)
    if inQuietHours && !bypassQuietHours then
      if eventConfig.allowDigest && p.digestEnabled then
        ({ base with digestQueued := true }, st)
      else
        ({ base with queued := true }, st)
    else
      let contact := loadUserContactInfo p
      let acc := channels.foldl
        (fun acc c => sendToChannel env notificationId req p contact c acc)
        ⟨[], [], st⟩
      ({ base with results := acc.results, skippedChannels := acc.skipped }, acc.st)

/-- `NotificationRouter.route`: dedup gate, then the remainder. The fresh
uuid is an input; the preference document is the oracle for
`UserPreferences.findOrCreateByUserId`. -/
def route (env : RouteEnv) (st : SysState) (req : NotificationRequest)
    (notificationId : String) (p : UserPrefs) : RouteResult × SysState :=
  let eventConfig := EVENT_TYPE_CONFIGS req.eventType
  let dedup := checkAndMark env.dedupOk st.dedup req.userId (eventTypeName req.eventType)
    req.eventSourceId notificationId eventConfig.dedupWindowMs (env.nowMs / 1000)
  let st := { st with dedup := dedup.2 }
  if dedup.1.isDuplicate then
    ({ notificationId := notificationId
       userId := req.userId
       eventType := req.eventType
       results := []
       skippedChannels := [(.websocket, "Duplicate notification")]
       queued := false
       digestQueued := false }, st)
  else
    routeRest env st req notificationId p

-- ==================== RetryService (src/services/RetryService.ts) ====================

/-- A Delivery Record row as the retry engine sees it
(`NotificationEvent` with retry-tracking fields). -/
structure RetryRecord where
  notificationId : String
  userId : String
  eventType : EventType
  eventSourceId : Option String
  channel : Channel
  priority : Priority
  title : List Char
  message : List Char
  retryCount : Nat
  deliveryStatus : DeliveryStatus
  nextRetryAt : Option Nat
  lastRetryAt : Option Nat
  errorMessage : Option String
  sentAt : Option Nat
deriving DecidableEq, Repr

/-- `NotificationEvent.markSent`. -/
def markSent (r : RetryRecord) (now : Nat) : RetryRecord :=
  { r with deliveryStatus := .sent, sentAt := some now }

/-- `NotificationEvent.markFailed`. -/
def markFailed (r : RetryRecord) (error : String) (now : Nat) : RetryRecord :=
  { r with deliveryStatus := .failed, errorMessage := some error, lastRetryAt := some now }

/-- `NotificationEvent.markRetrying`: sets status, increments the retry
count and records the next attempt time. -/
def markRetrying (r : RetryRecord) (nextRetryAt now : Nat) : RetryRecord :=
  { r with deliveryStatus := .retrying
           retryCount := r.retryCount + 1
           lastRetryAt := some now
           nextRetryAt := some nextRetryAt }

/-- A DLQ row (`DeadLetterQueue.create` fields the claims observe). -/
structure DLQRecord where
  originalNotificationId : String
  userId : String
  eventType : EventType
  channel : Channel
  priority : Priority
  failureReason : String
  totalAttempts : Nat
  lastAttemptAt : Nat
  failureHistory : List (Nat × String)
  reviewStatus : String
deriving DecidableEq, Repr

/-- `config.retryDelaySchedule` (attempt number → delay ms). -/
def retryDelaySchedule : Nat → Option Nat
  | 1 => some 1000
  | 2 => some 5000
  | 3 => some 30000
  | 4 => some 300000
  | 5 => some 3600000
  | _ => none

/-- `config.notification.maxRetryAttempts` default. -/
def maxRetryAttempts : Nat := 5

/-- `RetryService.moveToDeadLetterQueue`: snapshots the failing delivery;
`totalAttempts` is `retryCount + 1` and `failureHistory` is the single
entry for this final failure. -/
def moveToDeadLetterQueue (r : RetryRecord) (reason : String) (now : Nat) : DLQRecord :=
  { originalNotificationId := r.notificationId
    userId := r.userId
    eventType := r.eventType
    channel := r.channel
    priority := r.priority
    failureReason := reason
    totalAttempts := r.retryCount + 1
    lastAttemptAt := now
    failureHistory := [(now, reason)]
    reviewStatus := "pending_review" }

/-- `RetryService.scheduleNextRetry`: on reaching the max-attempt cap,
write a DLQ record and mark the original failed; otherwise schedule the
next attempt after the configured delay for the new count. -/
def scheduleNextRetry (maxAttempts : Nat) (r : RetryRecord) (error : Option String)
    (now : Nat) : RetryRecord × Option DLQRecord :=
  let newRetryCount := r.retryCount + 1
  if newRetryCount ≥ maxAttempts then
    let dlq := moveToDeadLetterQueue r (error.getD "Max retries exceeded") now
    (markFailed r "Max retries exceeded" now, some dlq)
  else
    let delayMs := (retryDelaySchedule newRetryCount).getD 3600000
    (markRetrying r (now + delayMs) now, none)

/-- The retry engine driving a record through cycles in which the
re-route never reports a sent or delivered channel: each cycle runs
`scheduleNextRetry`, stopping once a DLQ record is produced. -/
def runFailingRetries : Nat → RetryRecord → Nat → RetryRecord × Option DLQRecord
  | 0, r, _ => (r, none)
  | n + 1, r, now =>
      match scheduleNextRetry maxRetryAttempts r none now with
      | (r', some d) => (r', some d)
      | (r', none) => runFailingRetries n r' now

/-- The `processRetries` WHERE clause: status `retrying`, next attempt
elapsed (a NULL `nextRetryAt` matches nothing), retry count strictly
below the configured max. -/
def retryEligible (maxAttempts now : Nat) (r : RetryRecord) : Bool :=
  r.deliveryStatus = .retrying &&
    (match r.nextRetryAt with | some t => decide (t ≤ now) | none => false) &&
    r.retryCount < maxAttempts

/-- The records one `processRetries` tick loads: the eligible ones,
ordered by `nextRetryAt` ascending, capped at 100. -/
def processRetriesSelection (recs : List RetryRecord) (maxAttempts now : Nat) :
    List RetryRecord :=
  (((recs.filter (retryEligible maxAttempts now)).mergeSort
      (fun a b => a.nextRetryAt.getD 0 ≤ b.nextRetryAt.getD 0)).take 100)

-- ==================== DigestService (src/services/DigestService.ts) ====================

/-- A digest queue entry (the JSON blob pushed by `queueForDigest`). -/
structure DigestEntry where
  notificationId : String
  eventType : EventType
  title : List Char
  message : List Char
  createdAt : Nat
deriving DecidableEq, Repr

/-- State touched by `sendDigestForUser` for one (user, frequency) key:
the Redis digest list and the Delivery-Record statuses by notification
id. -/
structure DigestState where
  queue : List DigestEntry
  recordStatus : String → DeliveryStatus

/-- `DigestService.sendDigestForUser`: drain the list; missing
preferences or email abort without touching the queue; the email adapter
outcome (`sendStatus`, from `emailHandler.sendDigest`) gates the clear:
only `sent` clears the list and marks the referenced records delivered. -/
def sendDigestForUser (st : DigestState) (prefs : Option UserPrefs)
    (sendStatus : DeliveryStatus) : DigestState :=
  let entries := st.queue
  if entries.length = 0 then st
  else
    match prefs with
    | none => st
    | some p =>
        match p.emailAddress with
        | none => st
        | some _ =>
            if sendStatus = .sent then
              { queue := []
                recordStatus := fun id =>
                  if entries.any (fun e => e.notificationId = id) then .delivered
                  else st.recordStatus id }
            else st

-- ==================== Theorems ====================

theorem smsUnsubscribe_length : smsUnsubscribe.length = 27 := rfl

theorem formatMessage_eq (title message : List Char) :
    formatMessage title message =
      if (title ++ ':' :: ' ' :: message).length > 133 then
        ((title ++ ':' :: ' ' :: message).take 130 ++ "...".data) ++ smsUnsubscribe
      else (title ++ ':' :: ' ' :: message) ++ smsUnsubscribe := rfl

/-- C9: every composed SMS message fits in 160 code units; when the
combined title and body exceed the available length (133) the output is
the truncated text ending in "..." followed by the unsubscribe suffix,
and otherwise it is the untruncated text followed by the suffix. -/
theorem formatMessage_fits_160 (title message : List Char) :
    (formatMessage title message).length ≤ 160 ∧
    ((title ++ ':' :: ' ' :: message).length > 133 →
      formatMessage title message =
        ((title ++ ':' :: ' ' :: message).take 130 ++ "...".data) ++ smsUnsubscribe) ∧
    ((title ++ ':' :: ' ' :: message).length ≤ 133 →
      formatMessage title message = (title ++ ':' :: ' ' :: message) ++ smsUnsubscribe) := by
  rw [formatMessage_eq]
  by_cases h : (title ++ ':' :: ' ' :: message).length > 133
  · rw [if_pos h]
    refine ⟨?_, fun _ => rfl, fun h2 => absurd h (by omega)⟩
    simp only [List.length_append, List.length_take, List.length_cons, List.length_nil,
      smsUnsubscribe_length]
    simp only [List.length_append, List.length_cons] at h
    omega
  · rw [if_neg h]
    refine ⟨?_, fun h1 => absurd h1 h, fun _ => rfl⟩
    simp only [List.length_append, List.length_cons, smsUnsubscribe_length]
    simp only [List.length_append, List.length_cons, not_lt] at h
    omega

/-- Witness: a short title and body are passed through untruncated. -/
theorem formatMessage_fits_160_witness :
    ("Hi".data ++ ':' :: ' ' :: "Low balance".data).length ≤ 133 ∧
    formatMessage "Hi".data "Low balance".data =
      ("Hi".data ++ ':' :: ' ' :: "Low balance".data) ++ smsUnsubscribe :=
  ⟨by decide, (formatMessage_fits_160 "Hi".data "Low balance".data).2.2 (by decide)⟩

/-- The mongoose schema defaults of a fresh `UserPreferences` document
(all channels enabled, digest off, quiet hours off with window
22:00-07:00 in America/New_York, `criticalAlertsBypass` true, default
caps, no do-not-contact). Times of day in minutes; the timezone is the
zone's UTC offset in minutes mod 1440 (America/New_York = UTC-5 = 1140). -/
def defaultPrefs (userId : String) : UserPrefs :=
  { userId := userId
    websocketEnabled := true
    smsEnabled := true
    smsPhoneNumber := none
    smsVerifiedAt := none
    emailEnabled := true
    emailAddress := none
    emailVerifiedAt := none
    digestEnabled := false
    digestFrequency := .daily
    digestTime := 540
    pushEnabled := true
    pushDevices := []
    notificationTypes := fun _ => none
    quietHours :=
      { enabled := false, start := 1320, stop := 420, timezone := 1140
        criticalAlertsBypass := true }
    rateLimits :=
      { smsPerHour := 10, smsPerDay := 50, emailPerHour := 20, emailPerDay := 100
        pushPerHour := 30, pushPerDay := 200 }
    doNotContact := false }

/-- Quiet hours 22:00-07:00 in America/New_York (UTC-5). -/
def prefsNY : UserPrefs :=
  { defaultPrefs "user-ny" with
    quietHours :=
      { enabled := true, start := 1320, stop := 420, timezone := 1140
        criticalAlertsBypass := false } }

/-- The same quiet-hours window but configured for Asia/Tokyo (UTC+9). -/
def prefsTokyo : UserPrefs :=
  { defaultPrefs "user-tokyo" with
    quietHours :=
      { enabled := true, start := 1320, stop := 420, timezone := 540
        criticalAlertsBypass := false } }

/-- C8: `isInQuietHours` resolves "now" with the process-local clock and
never reads `quietHours.timezone`. At the instant 04:00 UTC, with the
process clock in New York (local 23:00), the user configured for Tokyo
(local 13:00, outside the window) still gets `true` - the same decision
as the New York user - whereas the per-user-timezone decision required by
the spec gives `true` for New York and `false` for Tokyo. -/
theorem isInQuietHours_ignores_timezone :
    prefsNY.quietHours.timezone ≠ prefsTokyo.quietHours.timezone ∧
    isInQuietHours prefsNY 14400000 1140 = true ∧
    isInQuietHours prefsTokyo 14400000 1140 = true ∧
    isInQuietHoursSpec prefsNY 14400000 = true ∧
    isInQuietHoursSpec prefsTokyo 14400000 = false := by
  refine ⟨by decide, ?_, ?_, ?_, ?_⟩ <;> decide

theorem hourKey_ne_dayKey (userId : String) (c : Channel) (limits : UserRateLimits)
    (hws : c ≠ Channel.websocket) :
    (getChannelKeys userId c limits).hourKey ≠ (getChannelKeys userId c limits).dayKey := by
  cases c
  · exact absurd rfl hws
  all_goals
    intro h
    have hlen := congrArg String.length h
    simp only [getChannelKeys, RATE_LIMIT_SMS_HOUR, RATE_LIMIT_SMS_DAY,
      RATE_LIMIT_EMAIL_HOUR, RATE_LIMIT_EMAIL_DAY, RATE_LIMIT_PUSH_HOUR,
      RATE_LIMIT_PUSH_DAY, String.length_append,
      show ("ratelimit:sms:hour:" : String).length = 19 from rfl,
      show ("ratelimit:sms:day:" : String).length = 18 from rfl,
      show ("ratelimit:email:hour:" : String).length = 21 from rfl,
      show ("ratelimit:email:day:" : String).length = 20 from rfl,
      show ("ratelimit:push:hour:" : String).length = 20 from rfl,
      show ("ratelimit:push:day:" : String).length = 19 from rfl] at hlen
    omega

/-- C5: for every user and budget channel, a call with the hour counter
exactly at the hourly cap is refused with `resetAt` at most one hour
window away; with the hour counter one below the cap (and the day budget
available) it is allowed; an allowed call increments both counters and a
refused call increments neither. The TTL hypothesis is the invariant
maintained by `EXPIRE hourKey 3600`. -/
theorem consumeLimit_at_caps (userId : String) (c : Channel) (s : RedisCounters)
    (limits : UserRateLimits) (nowMs : Nat)
    (hws : c ≠ Channel.websocket)
    (httl : s.ttls (getChannelKeys userId c limits).hourKey ≤ 3600) :
    (s.counters (getChannelKeys userId c limits).hourKey =
        (getChannelKeys userId c limits).hourLimit →
      (consumeLimit true s userId c limits nowMs).1.allowed = false ∧
      (consumeLimit true s userId c limits nowMs).1.resetAt ≤ nowMs + 3600000) ∧
    (s.counters (getChannelKeys userId c limits).hourKey + 1 =
        (getChannelKeys userId c limits).hourLimit →
      s.counters (getChannelKeys userId c limits).dayKey <
        (getChannelKeys userId c limits).dayLimit →
      (consumeLimit true s userId c limits nowMs).1.allowed = true) ∧
    ((consumeLimit true s userId c limits nowMs).1.allowed = true →
      (consumeLimit true s userId c limits nowMs).2.counters
          (getChannelKeys userId c limits).hourKey =
        s.counters (getChannelKeys userId c limits).hourKey + 1 ∧
      (consumeLimit true s userId c limits nowMs).2.counters
          (getChannelKeys userId c limits).dayKey =
        s.counters (getChannelKeys userId c limits).dayKey + 1) ∧
    ((consumeLimit true s userId c limits nowMs).1.allowed = false →
      ∀ x, (consumeLimit true s userId c limits nowMs).2.counters x = s.counters x) := by
  have hk := hourKey_ne_dayKey userId c limits hws
  set k := getChannelKeys userId c limits with hkdef
  have hcl : consumeLimit true s userId c limits nowMs =
      (let r := consumeLua s k
       let allowed := r.1.1
       let remaining := r.1.2.1
       let limit := r.1.2.2.1
       let ttl := r.1.2.2.2
       let ttlMs : Nat := if ttl > 0 then ttl.toNat * 1000 else RATE_LIMIT_HOUR_TTL * 1000
       ({ allowed := allowed = 1,
          remaining := remaining,
          limit := limit,
          resetAt := nowMs + ttlMs,
          waitMs := if allowed = 0 then some ttlMs else none }, r.2)) := by
    rw [consumeLimit, if_neg hws]
    rfl
  by_cases h1 : s.counters k.hourKey ≥ k.hourLimit
  · have hlua : consumeLua s k =
        ((0, ((s.counters k.hourKey : Int)), ((k.hourLimit : Int)), s.ttls k.hourKey), s) := by
      rw [consumeLua, if_pos h1]
    rw [hcl, hlua]
    refine ⟨fun _ => ⟨by simp, ?_⟩, fun heq _ => absurd heq (by omega), ?_, fun _ x => rfl⟩
    · simp only
      by_cases hpos : s.ttls k.hourKey > 0
      · rw [if_pos hpos]
        omega
      · rw [if_neg hpos]
        simp [RATE_LIMIT_HOUR_TTL]
    · intro hfalse
      simp at hfalse
  · by_cases h2 : s.counters k.dayKey ≥ k.dayLimit
    · have hlua : consumeLua s k =
          ((0, ((s.counters k.dayKey : Int)), ((k.dayLimit : Int)), s.ttls k.dayKey), s) := by
        rw [consumeLua, if_neg h1, if_pos h2]
      rw [hcl, hlua]
      exact ⟨fun heq => absurd heq (by omega), fun _ hday => absurd hday (by omega),
        fun hfalse => by simp at hfalse, fun _ x => rfl⟩
    · have hlua : consumeLua s k =
          ((1, min ((k.hourLimit : Int) - s.counters k.hourKey - 1)
                   ((k.dayLimit : Int) - s.counters k.dayKey - 1),
            ((k.hourLimit : Int)),
            (setTTL (bumpCounter (setTTL (bumpCounter s k.hourKey) k.hourKey
                (RATE_LIMIT_HOUR_TTL : Int)) k.dayKey) k.dayKey
                (RATE_LIMIT_DAY_TTL : Int)).ttls k.hourKey),
           setTTL (bumpCounter (setTTL (bumpCounter s k.hourKey) k.hourKey
               (RATE_LIMIT_HOUR_TTL : Int)) k.dayKey) k.dayKey
               (RATE_LIMIT_DAY_TTL : Int)) := by
        rw [consumeLua, if_neg h1, if_neg h2]
      rw [hcl, hlua]
      refine ⟨fun heq => absurd heq (by omega), fun _ _ => by simp, fun _ => ⟨?_, ?_⟩,
        fun hfalse => by simp at hfalse⟩
      · simp [setTTL, bumpCounter, if_neg hk]
      · simp [setTTL, bumpCounter, if_neg (Ne.symm hk)]

/-- State with the SMS hour counter of user "user-w" at the default cap. -/
def wRateState : RedisCounters :=
  { counters := fun k => if k = RATE_LIMIT_SMS_HOUR "user-w" then 10 else 0
    ttls := fun _ => 1800 }

/-- Witness: at the cap (10/h for SMS) the call is refused and `resetAt`
is within the hour window. -/
theorem consumeLimit_at_caps_witness :
    (consumeLimit true wRateState "user-w" .sms (defaultPrefs "user-w").rateLimits 0).1.allowed
      = false ∧
    (consumeLimit true wRateState "user-w" .sms
        (defaultPrefs "user-w").rateLimits 0).1.resetAt ≤ 0 + 3600000 :=
  (consumeLimit_at_caps "user-w" .sms wRateState (defaultPrefs "user-w").rateLimits 0
    (by decide) (by decide)).1 (by decide)

/-- C6: store failures fail open. A dedup-store failure produces a
not-duplicate result with the store untouched and `route` continues as
the not-duplicate continuation `routeRest` on the unchanged state; a
rate-store failure produces an allowed result with the counters untouched
and `sendToChannel` continues into the channel attempt. Neither failure
ends the `route` call early. -/
theorem store_failures_fail_open
    (store : DedupStore) (userId eventType : String) (sourceId : Option String)
    (notificationId : String) (windowMs nowSec : Nat)
    (s : RedisCounters) (c : Channel) (limits : UserRateLimits) (nowMs : Nat)
    (env : RouteEnv) (st : SysState) (req : NotificationRequest) (nid : String)
    (p : UserPrefs) (contact : UserContactInfo) (acc : FanoutAcc) :
    (checkAndMark false store userId eventType sourceId notificationId
        windowMs nowSec).1.isDuplicate = false ∧
    (checkAndMark false store userId eventType sourceId notificationId
        windowMs nowSec).2 = store ∧
    (consumeLimit false s userId c limits nowMs).1.allowed = true ∧
    (consumeLimit false s userId c limits nowMs).2 = s ∧
    route { env with dedupOk := false } st req nid p =
      routeRest { env with dedupOk := false } st req nid p ∧
    sendToChannel { env with rateOk := false } nid req p contact c acc =
      attemptChannel { env with rateOk := false } nid req contact c acc := by
  refine ⟨rfl, rfl, ?_, ?_, ?_, ?_⟩
  · by_cases hc : c = Channel.websocket <;> simp [consumeLimit, hc]
  · by_cases hc : c = Channel.websocket <;> simp [consumeLimit, hc]
  · rfl
  · cases c <;> rfl

/-- C10: a `processRetries` tick selects only Delivery Records with
status `retrying`, an elapsed next-attempt time, and a retry count
strictly below the configured max; hence a record whose retry count has
reached the max is never selected by any tick. -/
theorem retry_scanner_selects_only_eligible (recs : List RetryRecord)
    (maxAttempts now : Nat) (r : RetryRecord) :
    (∀ x ∈ processRetriesSelection recs maxAttempts now,
      x.deliveryStatus = .retrying ∧
      (∃ t, x.nextRetryAt = some t ∧ t ≤ now) ∧
      x.retryCount < maxAttempts) ∧
    (maxAttempts ≤ r.retryCount → r ∉ processRetriesSelection recs maxAttempts now) := by
  have hmem : ∀ x ∈ processRetriesSelection recs maxAttempts now,
      retryEligible maxAttempts now x = true := by
    intro x hx
    have h1 := List.mem_of_mem_take hx
    rw [List.mem_mergeSort] at h1
    exact (List.mem_filter.mp h1).2
  have helig : ∀ x, retryEligible maxAttempts now x = true →
      x.deliveryStatus = .retrying ∧
      (∃ t, x.nextRetryAt = some t ∧ t ≤ now) ∧
      x.retryCount < maxAttempts := by
    intro x hx
    unfold retryEligible at hx
    simp only [Bool.and_eq_true, decide_eq_true_eq] at hx
    obtain ⟨⟨hst, hnext⟩, hcount⟩ := hx
    refine ⟨hst, ?_, hcount⟩
    cases hn : x.nextRetryAt with
    | none => rw [hn] at hnext; exact absurd hnext (by simp)
    | some t =>
        rw [hn] at hnext
        exact ⟨t, rfl, by simpa using hnext⟩
  refine ⟨fun x hx => helig x (hmem x hx), fun hge hmem2 => ?_⟩
  have := (helig r (hmem r hmem2)).2.2
  omega

/-- A record left in `retrying` with its retry count at the max. -/
def exhaustedRecord : RetryRecord :=
  { notificationId := "note-x", userId := "user-x", eventType := .transfer_failed
    eventSourceId := none, channel := .email, priority := .high
    title := "T".data, message := "M".data, retryCount := 5
    deliveryStatus := .retrying, nextRetryAt := some 0, lastRetryAt := none
    errorMessage := none, sentAt := none }

/-- Witness: a retrying record with retry count 5 is not selected. -/
theorem retry_scanner_selects_only_eligible_witness :
    5 ≤ exhaustedRecord.retryCount ∧
    exhaustedRecord ∉ processRetriesSelection [exhaustedRecord] 5 100 :=
  ⟨by decide,
   (retry_scanner_selects_only_eligible [exhaustedRecord] 5 100 exhaustedRecord).2
     (by decide)⟩

/-- C4 (amended): when a re-route reports no sent or delivered channel,
`scheduleNextRetry` computes `retryCount + 1`; at or past the max (5)
it writes one DLQ record with `totalAttempts = retryCount + 1` and a
failure history of length 1 and marks the record failed, otherwise it
sets the next attempt to now + the schedule delay for the new count and
keeps the record retrying; driving a fresh record through five failing
cycles ends failed with one DLQ record with `totalAttempts = 5` and a
failure history of length 1 (not 5). -/
theorem scheduleNextRetry_spec (r : RetryRecord) (error : Option String) (now : Nat) :
    (r.retryCount + 1 ≥ maxRetryAttempts →
      (scheduleNextRetry maxRetryAttempts r error now).1.deliveryStatus = .failed ∧
      (scheduleNextRetry maxRetryAttempts r error now).2 =
        some (moveToDeadLetterQueue r (error.getD "Max retries exceeded") now) ∧
      (moveToDeadLetterQueue r (error.getD "Max retries exceeded") now).totalAttempts =
        r.retryCount + 1 ∧
      (moveToDeadLetterQueue r
          (error.getD "Max retries exceeded") now).failureHistory.length = 1) ∧
    (r.retryCount + 1 < maxRetryAttempts →
      (scheduleNextRetry maxRetryAttempts r error now).1 =
        markRetrying r (now + ((retryDelaySchedule (r.retryCount + 1)).getD 3600000)) now ∧
      (scheduleNextRetry maxRetryAttempts r error now).1.deliveryStatus = .retrying ∧
      (scheduleNextRetry maxRetryAttempts r error now).1.retryCount = r.retryCount + 1 ∧
      (scheduleNextRetry maxRetryAttempts r error now).1.nextRetryAt =
        some (now + ((retryDelaySchedule (r.retryCount + 1)).getD 3600000)) ∧
      (scheduleNextRetry maxRetryAttempts r error now).2 = none) ∧
    (r.retryCount = 0 →
      (runFailingRetries 5 r now).2.map (fun d => d.totalAttempts) = some 5 ∧
      (runFailingRetries 5 r now).2.map (fun d => d.failureHistory.length) = some 1 ∧
      (runFailingRetries 5 r now).1.deliveryStatus = .failed) := by
  refine ⟨?_, ?_, ?_⟩
  · intro h
    rw [scheduleNextRetry, if_pos h]
    exact ⟨rfl, rfl, rfl, rfl⟩
  · intro h
    rw [scheduleNextRetry, if_neg (by omega)]
    exact ⟨rfl, rfl, rfl, rfl, rfl⟩
  · intro h0
    obtain ⟨nid, uid, et, src, ch, pr, ti, me, rc, ds, nra, lra, em, sa⟩ := r
    simp only at h0
    subst h0
    exact ⟨rfl, rfl, rfl⟩

/-- A fresh retrying email delivery for the retry-to-DLQ scenario. -/
def dlqScenarioRecord : RetryRecord :=
  { notificationId := "note-1", userId := "user-r", eventType := .transfer_failed
    eventSourceId := some "tx-9", channel := .email, priority := .high
    title := "Transfer Failed".data, message := "Your transfer failed".data
    retryCount := 0, deliveryStatus := .retrying, nextRetryAt := some 0
    lastRetryAt := none, errorMessage := none, sentAt := none }

/-- Witness: a first failing cycle on the fresh record schedules the next
attempt one second later and keeps it retrying. -/
theorem scheduleNextRetry_spec_witness :
    dlqScenarioRecord.retryCount + 1 < maxRetryAttempts ∧
    (scheduleNextRetry maxRetryAttempts dlqScenarioRecord none 1000).1.deliveryStatus
      = .retrying ∧
    (scheduleNextRetry maxRetryAttempts dlqScenarioRecord none 1000).1.nextRetryAt
      = some 2000 :=
  ⟨by decide,
   ((scheduleNextRetry_spec dlqScenarioRecord none 1000).2.1 (by decide)).2.1,
   ((scheduleNextRetry_spec dlqScenarioRecord none 1000).2.1 (by decide)).2.2.2.1⟩

/-- Counterexample to C4 as stated: after the full five failing retry
cycles the single DLQ record has `total_attempts = 5` but its failure
history has length 1, not 5 - `moveToDeadLetterQueue` records only the
final failure. -/
theorem retry_dlq_history_counterexample :
    (runFailingRetries 5 dlqScenarioRecord 1000).2.map (fun d => d.totalAttempts)
      = some 5 ∧
    (runFailingRetries 5 dlqScenarioRecord 1000).2.map
        (fun d => d.failureHistory.length) = some 1 ∧
    ¬ (runFailingRetries 5 dlqScenarioRecord 1000).2.map
        (fun d => d.failureHistory.length) = some 5 := by
  have h1 : (runFailingRetries 5 dlqScenarioRecord 1000).2.map
      (fun d => d.failureHistory.length) = some 1 := rfl
  exact ⟨rfl, h1, fun h => absurd (h1.symm.trans h) (by decide)⟩

/-- C7: `sendDigestForUser` clears the per-(user, frequency) digest list
and marks the referenced Delivery Records delivered exactly when the
digest email send reports `sent`; on any other outcome the queue and the
records are left untouched for the next tick. -/
theorem digest_cleared_only_on_sent (st : DigestState) (p : UserPrefs)
    (sendStatus : DeliveryStatus) (hne : st.queue ≠ [])
    (haddr : p.emailAddress.isSome = true) :
    (sendStatus ≠ .sent → sendDigestForUser st (some p) sendStatus = st) ∧
    (sendStatus = .sent →
      (sendDigestForUser st (some p) sendStatus).queue = [] ∧
      (∀ e ∈ st.queue,
        (sendDigestForUser st (some p) sendStatus).recordStatus e.notificationId
          = .delivered) ∧
      (∀ id, (∀ e ∈ st.queue, e.notificationId ≠ id) →
        (sendDigestForUser st (some p) sendStatus).recordStatus id
          = st.recordStatus id)) := by
  obtain ⟨a, ha⟩ := Option.isSome_iff_exists.mp haddr
  have hlen : ¬ st.queue.length = 0 := by
    simpa [List.length_eq_zero] using hne
  have hfun : sendDigestForUser st (some p) sendStatus =
      (if sendStatus = .sent then
        { queue := []
          recordStatus := fun id =>
            if st.queue.any (fun e => e.notificationId = id) then .delivered
            else st.recordStatus id }
       else st) := by
    rw [sendDigestForUser]
    rw [if_neg hlen, ha]
  constructor
  · intro hns
    rw [hfun, if_neg hns]
  · intro hs
    rw [hfun, if_pos hs]
    refine ⟨rfl, ?_, ?_⟩
    · intro e he
      have : st.queue.any (fun x => x.notificationId = e.notificationId) = true := by
        rw [List.any_eq_true]
        exact ⟨e, he, by simp⟩
      simp [this]
    · intro id hid
      have : st.queue.any (fun x => x.notificationId = id) = false := by
        rw [List.any_eq_false]
        intro e he
        simpa using hid e he
      simp [this]

def digestEntryA : DigestEntry :=
  { notificationId := "note-a", eventType := .low_balance_alert
    title := "Low balance".data, message := "Balance under limit".data
    createdAt := 0 }

def digestEntryB : DigestEntry :=
  { notificationId := "note-b", eventType := .account_statement_ready
    title := "Statement".data, message := "Statement ready".data
    createdAt := 0 }

/-- A two-entry daily digest queue. -/
def wDigestState : DigestState :=
  { queue := [digestEntryA, digestEntryB]
    recordStatus := fun _ => .queued_for_digest }

/-- Preferences with a decrypted email on file. -/
def wDigestPrefs : UserPrefs :=
  { defaultPrefs "user-d" with
    emailAddress := some "d@example.com", emailVerifiedAt := some 0
    digestEnabled := true }

/-- Witness: a failed digest send leaves the queue untouched, and a sent
one clears it and marks both records delivered. -/
theorem digest_cleared_only_on_sent_witness :
    sendDigestForUser wDigestState (some wDigestPrefs) .failed = wDigestState ∧
    (sendDigestForUser wDigestState (some wDigestPrefs) .sent).queue = [] ∧
    (sendDigestForUser wDigestState (some wDigestPrefs) .sent).recordStatus "note-a"
      = .delivered :=
  ⟨(digest_cleared_only_on_sent wDigestState wDigestPrefs .failed (by decide)
      (by decide)).1 (by decide),
   ((digest_cleared_only_on_sent wDigestState wDigestPrefs .sent (by decide)
      (by decide)).2 rfl).1,
   ((digest_cleared_only_on_sent wDigestState wDigestPrefs .sent (by decide)
      (by decide)).2 rfl).2.1 digestEntryA (by decide)⟩

/-- C1 (amended): a non-critical Route call inside the quiet-hours
window, with the kind's bypass flag unset, no per-kind override, AND the
user's `criticalAlertsBypass` flag false (the code applies that flag to
every priority), performs no channel attempts and touches neither the
rate counters, the history, nor the digest queues; when the kind is
digest-eligible and the user has email digest enabled only the
`digestQueued` flag is set (the notification is not appended to the
digest queue by `route`), otherwise `queued` is set. -/
theorem route_quiet_hours_queues (env : RouteEnv) (st : SysState)
    (req : NotificationRequest) (nid : String) (p : UserPrefs)
    (hdup : dedupGet st.dedup
      (dedupGenerateKey req.userId (eventTypeName req.eventType) req.eventSourceId)
      (env.nowMs / 1000) = none)
    (hdnc : p.doNotContact = false)
    (hpr : req.priority.getD (EVENT_TYPE_CONFIGS req.eventType).priority ≠ .critical)
    (hqh : isInQuietHours p env.nowMs env.processOffsetMin = true)
    (hbp : (EVENT_TYPE_CONFIGS req.eventType).bypassQuietHours = false)
    (hov : ∀ tp, p.notificationTypes req.eventType = some tp →
      tp.quietHoursOverride = false)
    (hcb : p.quietHours.criticalAlertsBypass = false) :
    (route env st req nid p).1.results = [] ∧
    (route env st req nid p).1.skippedChannels = [] ∧
    (((EVENT_TYPE_CONFIGS req.eventType).allowDigest && p.digestEnabled) = true →
      (route env st req nid p).1.digestQueued = true ∧
      (route env st req nid p).1.queued = false) ∧
    (((EVENT_TYPE_CONFIGS req.eventType).allowDigest && p.digestEnabled) = false →
      (route env st req nid p).1.queued = true ∧
      (route env st req nid p).1.digestQueued = false) ∧
    (route env st req nid p).2.rate = st.rate ∧
    (route env st req nid p).2.history = st.history ∧
    (route env st req nid p).2.digests = st.digests := by
  have hsb : shouldBypassQuietHours p req.eventType = false := by
    unfold shouldBypassQuietHours
    cases hnt : p.notificationTypes req.eventType with
    | none => exact hcb
    | some tp => simp [hov tp hnt, hcb]
  have hnd : (checkAndMark env.dedupOk st.dedup req.userId (eventTypeName req.eventType)
      req.eventSourceId nid (EVENT_TYPE_CONFIGS req.eventType).dedupWindowMs
      (env.nowMs / 1000)).1.isDuplicate = false := by
    unfold checkAndMark
    cases env.dedupOk with
    | false => rfl
    | true =>
        simp only [Bool.not_true, Bool.false_eq_true, if_false, hdup]
        split <;> rfl
  have hbool : ((EVENT_TYPE_CONFIGS req.eventType).bypassQuietHours ||
      shouldBypassQuietHours p req.eventType ||
      decide (req.priority.getD (EVENT_TYPE_CONFIGS req.eventType).priority =
        Priority.critical)) = false := by
    rw [hbp, hsb]
    simp [hpr]
  have hmain : route env st req nid p =
      (if ((EVENT_TYPE_CONFIGS req.eventType).allowDigest && p.digestEnabled) then
         ({ notificationId := nid, userId := req.userId, eventType := req.eventType
            results := [], skippedChannels := [], queued := false, digestQueued := true },
          { st with dedup := (checkAndMark env.dedupOk st.dedup req.userId
              (eventTypeName req.eventType) req.eventSourceId nid
              (EVENT_TYPE_CONFIGS req.eventType).dedupWindowMs (env.nowMs / 1000)).2 })
       else
         ({ notificationId := nid, userId := req.userId, eventType := req.eventType
            results := [], skippedChannels := [], queued := true, digestQueued := false },
          { st with dedup := (checkAndMark env.dedupOk st.dedup req.userId
              (eventTypeName req.eventType) req.eventSourceId nid
              (EVENT_TYPE_CONFIGS req.eventType).dedupWindowMs (env.nowMs / 1000)).2 })) := by
    unfold route routeRest
    simp only [hnd, Bool.false_eq_true, if_false, hdnc, hqh, hbool, Bool.not_false,
      Bool.true_and, if_true]
  by_cases hd : ((EVENT_TYPE_CONFIGS req.eventType).allowDigest && p.digestEnabled) = true
  · rw [hmain, if_pos hd]
    exact ⟨rfl, rfl, fun _ => ⟨rfl, rfl⟩, fun hno => by simp [hd] at hno, rfl, rfl, rfl⟩
  · rw [hmain, if_neg hd]
    exact ⟨rfl, rfl, fun hyes => absurd hyes hd, fun _ => ⟨rfl, rfl⟩, rfl, rfl, rfl⟩

/-- Quiet hours 22:00-07:00 active, digest enabled, and the
`criticalAlertsBypass` flag cleared. -/
def qhPrefs : UserPrefs :=
  { defaultPrefs "user-q" with
    digestEnabled := true
    quietHours :=
      { enabled := true, start := 1320, stop := 420, timezone := 1140
        criticalAlertsBypass := false } }

/-- A healthy environment: providers acknowledge, both stores reachable,
process-local time 23:00. -/
def qhEnv : RouteEnv :=
  { nowMs := 82800000
    processOffsetMin := 0
    adapters := fun c => .ok ⟨c, .sent, some "mid", none⟩
    dedupOk := true
    rateOk := true }

/-- Fresh shared state: no dedup entries, zero counters, empty history
and digest queues. -/
def emptySysState : SysState :=
  { dedup := fun _ => none
    rate := { counters := fun _ => 0, ttls := fun _ => -2 }
    history := []
    digests := fun _ => [] }

/-- A digest-eligible, low-priority request. -/
def qhReq : NotificationRequest :=
  { userId := "user-q", eventType := .transfer_initiated
    title := "Transfer started".data, message := "We are on it".data
    eventSourceId := some "tx-1", priority := none, correlationId := none }

/-- Witness: with the bypass flag cleared the quiet-hours call sets only
`digestQueued` and leaves every store component untouched. -/
theorem route_quiet_hours_queues_witness :
    (route qhEnv emptySysState qhReq "note-q" qhPrefs).1.digestQueued = true ∧
    (route qhEnv emptySysState qhReq "note-q" qhPrefs).1.results = [] ∧
    (route qhEnv emptySysState qhReq "note-q" qhPrefs).2.digests
      = emptySysState.digests := by
  have H := route_quiet_hours_queues qhEnv emptySysState qhReq "note-q" qhPrefs
    rfl (by decide) (by decide) (by decide) (by decide)
    (by intro tp h; simp [qhPrefs, defaultPrefs] at h) (by decide)
  exact ⟨(H.2.2.1 (by decide)).1, H.1, H.2.2.2.2.2.2⟩

/-- The same user but with the mongoose default
`criticalAlertsBypass = true`. -/
def qhCexPrefs : UserPrefs :=
  { defaultPrefs "user-q" with
    digestEnabled := true
    quietHours :=
      { enabled := true, start := 1320, stop := 420, timezone := 1140
        criticalAlertsBypass := true } }

/-- Counterexample to C1 as stated: all of the claim's hypotheses hold
(non-critical priority, inside quiet hours, kind bypass flag false, no
per-kind override, digest-eligible kind with digest enabled), yet the
call is NOT deferred: `shouldBypassQuietHours` returns the
`criticalAlertsBypass` flag (default true) for every priority, so the
websocket attempt runs and neither `digestQueued` nor `queued` is set. -/
theorem route_quiet_hours_counterexample :
    (qhReq.priority.getD (EVENT_TYPE_CONFIGS qhReq.eventType).priority) ≠ .critical ∧
    isInQuietHours qhCexPrefs qhEnv.nowMs qhEnv.processOffsetMin = true ∧
    (EVENT_TYPE_CONFIGS qhReq.eventType).bypassQuietHours = false ∧
    qhCexPrefs.notificationTypes qhReq.eventType = none ∧
    (EVENT_TYPE_CONFIGS qhReq.eventType).allowDigest = true ∧
    qhCexPrefs.digestEnabled = true ∧
    qhCexPrefs.doNotContact = false ∧
    (route qhEnv emptySysState qhReq "note-q2" qhCexPrefs).1.digestQueued = false ∧
    (route qhEnv emptySysState qhReq "note-q2" qhCexPrefs).1.queued = false ∧
    (route qhEnv emptySysState qhReq "note-q2" qhCexPrefs).1.results ≠ [] := by
  refine ⟨by decide, by decide, by decide, by decide, by decide, by decide, by decide,
    ?_, ?_, ?_⟩
  · rfl
  · rfl
  · decide

/-- The contact preconditions checked in `sendToChannel` (SMS verified
phone, email verified address, push registered device). -/
def missingContact (contact : UserContactInfo) : Channel → Bool
  | .websocket => false
  | .sms => !(contact.phoneNumber.isSome && contact.phoneVerified)
  | .email => !(contact.email.isSome && contact.emailVerified)
  | .push => decide ((contact.pushTokens.getD []).length = 0)

/-- The skip reason recorded for each missing contact precondition. -/
def missingContactReason : Channel → String
  | .websocket => ""
  | .sms => "Phone number not verified"
  | .email => "Email not verified"
  | .push => "No push tokens registered"

theorem consumeLimit_allowed_increments (s : RedisCounters) (userId : String)
    (c : Channel) (limits : UserRateLimits) (nowMs : Nat)
    (hws : c ≠ Channel.websocket)
    (hallow : (consumeLimit true s userId c limits nowMs).1.allowed = true) :
    (consumeLimit true s userId c limits nowMs).2.counters
        (getChannelKeys userId c limits).hourKey =
      s.counters (getChannelKeys userId c limits).hourKey + 1 ∧
    (consumeLimit true s userId c limits nowMs).2.counters
        (getChannelKeys userId c limits).dayKey =
      s.counters (getChannelKeys userId c limits).dayKey + 1 := by
  have hk := hourKey_ne_dayKey userId c limits hws
  set k := getChannelKeys userId c limits with hkdef
  have hcl : consumeLimit true s userId c limits nowMs =
      (let r := consumeLua s k
       let allowed := r.1.1
       let remaining := r.1.2.1
       let limit := r.1.2.2.1
       let ttl := r.1.2.2.2
       let ttlMs : Nat := if ttl > 0 then ttl.toNat * 1000 else RATE_LIMIT_HOUR_TTL * 1000
       ({ allowed := allowed = 1,
          remaining := remaining,
          limit := limit,
          resetAt := nowMs + ttlMs,
          waitMs := if allowed = 0 then some ttlMs else none }, r.2)) := by
    rw [consumeLimit, if_neg hws]
    rfl
  rw [hcl] at hallow ⊢
  by_cases h1 : s.counters k.hourKey ≥ k.hourLimit
  · rw [show consumeLua s k =
        ((0, ((s.counters k.hourKey : Int)), ((k.hourLimit : Int)), s.ttls k.hourKey), s) from
        by rw [consumeLua, if_pos h1]] at hallow
    simp at hallow
  · by_cases h2 : s.counters k.dayKey ≥ k.dayLimit
    · rw [show consumeLua s k =
          ((0, ((s.counters k.dayKey : Int)), ((k.dayLimit : Int)), s.ttls k.dayKey), s) from
          by rw [consumeLua, if_neg h1, if_pos h2]] at hallow
      simp at hallow
    · rw [show consumeLua s k =
          ((1, min ((k.hourLimit : Int) - s.counters k.hourKey - 1)
                   ((k.dayLimit : Int) - s.counters k.dayKey - 1),
            ((k.hourLimit : Int)),
            (setTTL (bumpCounter (setTTL (bumpCounter s k.hourKey) k.hourKey
                (RATE_LIMIT_HOUR_TTL : Int)) k.dayKey) k.dayKey
                (RATE_LIMIT_DAY_TTL : Int)).ttls k.hourKey),
           setTTL (bumpCounter (setTTL (bumpCounter s k.hourKey) k.hourKey
               (RATE_LIMIT_HOUR_TTL : Int)) k.dayKey) k.dayKey
               (RATE_LIMIT_DAY_TTL : Int)) from
          by rw [consumeLua, if_neg h1, if_neg h2]]
      constructor
      · simp [setTTL, bumpCounter, if_neg hk]
      · simp [setTTL, bumpCounter, if_neg (Ne.symm hk)]

/-- C2 (amended): a selected channel whose contact precondition is
missing is recorded as skipped with its specific reason, no Delivery
Record is persisted and no provider result is appended - but the rate
budget is consumed BEFORE the precondition check, so when the rate store
is reachable and the check allows, the user's hourly and daily counters
for the channel are each incremented by one. -/
theorem sendToChannel_missing_contact (env : RouteEnv) (nid : String)
    (req : NotificationRequest) (p : UserPrefs) (contact : UserContactInfo)
    (c : Channel) (acc : FanoutAcc)
    (hws : c ≠ Channel.websocket)
    (hmiss : missingContact contact c = true)
    (hallow : (consumeLimit env.rateOk acc.st.rate req.userId c p.rateLimits
        env.nowMs).1.allowed = true) :
    (sendToChannel env nid req p contact c acc).results = acc.results ∧
    (sendToChannel env nid req p contact c acc).skipped =
      acc.skipped ++ [(c, missingContactReason c)] ∧
    (sendToChannel env nid req p contact c acc).st.history = acc.st.history ∧
    (sendToChannel env nid req p contact c acc).st.rate =
      (consumeLimit env.rateOk acc.st.rate req.userId c p.rateLimits env.nowMs).2 ∧
    (env.rateOk = true →
      (sendToChannel env nid req p contact c acc).st.rate.counters
          (getChannelKeys req.userId c p.rateLimits).hourKey =
        acc.st.rate.counters (getChannelKeys req.userId c p.rateLimits).hourKey + 1 ∧
      (sendToChannel env nid req p contact c acc).st.rate.counters
          (getChannelKeys req.userId c p.rateLimits).dayKey =
        acc.st.rate.counters (getChannelKeys req.userId c p.rateLimits).dayKey + 1) := by
  have hsend : sendToChannel env nid req p contact c acc =
      attemptChannel env nid req contact c
        { acc with st := { acc.st with rate :=
            (consumeLimit env.rateOk acc.st.rate req.userId c p.rateLimits env.nowMs).2 } } := by
    unfold sendToChannel
    simp only [hallow, Bool.not_true, Bool.false_eq_true, if_false]
  have hatt : attemptChannel env nid req contact c
      { acc with st := { acc.st with rate :=
          (consumeLimit env.rateOk acc.st.rate req.userId c p.rateLimits env.nowMs).2 } } =
      { acc with
        skipped := acc.skipped ++ [(c, missingContactReason c)]
        st := { acc.st with rate :=
          (consumeLimit env.rateOk acc.st.rate req.userId c p.rateLimits env.nowMs).2 } } := by
    cases c
    · exact absurd rfl hws
    all_goals
      unfold attemptChannel
      unfold missingContact at hmiss
      simp only [missingContactReason, hmiss, if_true, decide_eq_true_eq] at hmiss ⊢
      first
        | rfl
        | (rw [if_pos hmiss])
  rw [hsend, hatt]
  refine ⟨rfl, rfl, rfl, rfl, fun hok => ?_⟩
  have := consumeLimit_allowed_increments acc.st.rate req.userId c p.rateLimits env.nowMs
    hws (by rw [hok] at hallow; exact hallow)
  rw [hok] at hallow ⊢
  exact this

/-- A login-failed request for a user with no phone or email on file. -/
def c2Req : NotificationRequest :=
  { userId := "user-c2", eventType := .login_failed
    title := "Login failed".data, message := "Check your account".data
    eventSourceId := some "lf-1", priority := none, correlationId := none }

/-- Counterexample to C2 as stated: the SMS and email attempts are
skipped with their specific reasons (no verified phone / address), yet
the rate counters for both channels were consumed by the attempt: the
code calls `consumeLimit` before the precondition check. -/
theorem sendToChannel_missing_contact_counterexample :
    (route qhEnv emptySysState c2Req "note-c2" (defaultPrefs "user-c2")).1.skippedChannels =
      [(.sms, "Phone number not verified"), (.email, "Email not verified")] ∧
    emptySysState.rate.counters (RATE_LIMIT_SMS_HOUR "user-c2") = 0 ∧
    (route qhEnv emptySysState c2Req "note-c2"
        (defaultPrefs "user-c2")).2.rate.counters (RATE_LIMIT_SMS_HOUR "user-c2") = 1 ∧
    (route qhEnv emptySysState c2Req "note-c2"
        (defaultPrefs "user-c2")).2.rate.counters (RATE_LIMIT_SMS_DAY "user-c2") = 1 ∧
    (route qhEnv emptySysState c2Req "note-c2"
        (defaultPrefs "user-c2")).2.rate.counters (RATE_LIMIT_EMAIL_HOUR "user-c2") = 1 := by
  refine ⟨rfl, rfl, ?_, ?_, ?_⟩ <;> decide

/-- Contact info with no verified phone. -/
def noPhoneContact : UserContactInfo :=
  { phoneNumber := none, phoneVerified := false
    email := some "c@example.com", emailVerified := true
    pushTokens := none }

/-- Witness: the amended statement at a concrete SMS attempt. -/
theorem sendToChannel_missing_contact_witness :
    (sendToChannel qhEnv "note-w2" c2Req (defaultPrefs "user-c2") noPhoneContact .sms
        ⟨[], [], emptySysState⟩).skipped = [(.sms, "Phone number not verified")] ∧
    (sendToChannel qhEnv "note-w2" c2Req (defaultPrefs "user-c2") noPhoneContact .sms
        ⟨[], [], emptySysState⟩).st.rate.counters
      (getChannelKeys c2Req.userId .sms (defaultPrefs "user-c2").rateLimits).hourKey = 0 + 1 := by
  have H := sendToChannel_missing_contact qhEnv "note-w2" c2Req (defaultPrefs "user-c2")
    noPhoneContact .sms ⟨[], [], emptySysState⟩ (by decide) (by decide) (by decide)
  exact ⟨by rw [H.2.1]; rfl, by rw [(H.2.2.2.2 rfl).1]; rfl⟩

theorem attemptChannel_dedup (env : RouteEnv) (nid : String) (req : NotificationRequest)
    (contact : UserContactInfo) (c : Channel) (acc : FanoutAcc) :
    (attemptChannel env nid req contact c acc).st.dedup = acc.st.dedup := by
  unfold attemptChannel storeNotification
  cases c <;> dsimp only <;> (repeat' split) <;> rfl

theorem sendToChannel_dedup (env : RouteEnv) (nid : String) (req : NotificationRequest)
    (p : UserPrefs) (contact : UserContactInfo) (c : Channel) (acc : FanoutAcc) :
    (sendToChannel env nid req p contact c acc).st.dedup = acc.st.dedup := by
  unfold sendToChannel
  dsimp only
  split
  · simp [storeNotification]
  · rw [attemptChannel_dedup]

theorem fold_sendToChannel_dedup (env : RouteEnv) (nid : String)
    (req : NotificationRequest) (p : UserPrefs) (contact : UserContactInfo)
    (channels : List Channel) (acc : FanoutAcc) :
    (channels.foldl (fun a c => sendToChannel env nid req p contact c a) acc).st.dedup =
      acc.st.dedup := by
  induction channels generalizing acc with
  | nil => rfl
  | cons c cs ih => rw [List.foldl_cons, ih, sendToChannel_dedup]

theorem routeRest_dedup (env : RouteEnv) (st : SysState) (req : NotificationRequest)
    (nid : String) (p : UserPrefs) :
    (routeRest env st req nid p).2.dedup = st.dedup := by
  unfold routeRest
  dsimp only
  split
  · rfl
  · split
    · split <;> rfl
    · exact fold_sendToChannel_dedup env nid req p (loadUserContactInfo p) _ ⟨[], [], st⟩

/-- A fresh non-duplicate `route` call registers its notification id
under the dedup key with TTL `ceil(window / 1000)`, and no later stage of
the call touches the dedup store. -/
theorem route_registers (env : RouteEnv) (st : SysState) (req : NotificationRequest)
    (nid : String) (p : UserPrefs)
    (henv : env.dedupOk = true)
    (hfresh : dedupGet st.dedup
      (dedupGenerateKey req.userId (eventTypeName req.eventType) req.eventSourceId)
      (env.nowMs / 1000) = none)
    (httl : ((EVENT_TYPE_CONFIGS req.eventType).dedupWindowMs + 999) / 1000 ≠ 0) :
    (route env st req nid p).2.dedup = (fun x =>
      if x = dedupGenerateKey req.userId (eventTypeName req.eventType) req.eventSourceId
      then some ⟨nid, env.nowMs / 1000,
        env.nowMs / 1000 + ((EVENT_TYPE_CONFIGS req.eventType).dedupWindowMs + 999) / 1000⟩
      else st.dedup x) := by
  have hcm : checkAndMark env.dedupOk st.dedup req.userId (eventTypeName req.eventType)
      req.eventSourceId nid (EVENT_TYPE_CONFIGS req.eventType).dedupWindowMs
      (env.nowMs / 1000) =
      ({ isDuplicate := false, originalNotificationId := none }, fun x =>
        if x = dedupGenerateKey req.userId (eventTypeName req.eventType) req.eventSourceId
        then some ⟨nid, env.nowMs / 1000,
          env.nowMs / 1000 + ((EVENT_TYPE_CONFIGS req.eventType).dedupWindowMs + 999) / 1000⟩
        else st.dedup x) := by
    rw [checkAndMark, henv]
    simp only [Bool.not_true, Bool.false_eq_true, if_false]
    rw [hfresh, if_neg httl]
  unfold route
  simp only [hcm, Bool.false_eq_true, if_false]
  rw [routeRest_dedup]

/-- Naive substring check, used to state what a skip reason "names". -/
def strContains (s pat : String) : Bool :=
  (List.range (s.length + 1)).any (fun i => pat.data.isPrefixOf (s.data.drop i))

/-- C3 (amended): a second Route call with the same (user, kind,
source-id) inside the kind's dedup window performs no channel attempts,
persists nothing (the state is unchanged), and returns a single skip
entry whose reason is the fixed string "Duplicate notification"; the
original notification id of the first call is carried by the dedup store
entry (and the dedup result / log), not by the skip entry. -/
theorem route_duplicate_second_call (env1 env2 : RouteEnv) (st : SysState)
    (req req2 : NotificationRequest) (n1 n2 : String) (p p2 : UserPrefs)
    (hu : req2.userId = req.userId) (he : req2.eventType = req.eventType)
    (hs : req2.eventSourceId = req.eventSourceId)
    (henv1 : env1.dedupOk = true) (henv2 : env2.dedupOk = true)
    (hfresh : dedupGet st.dedup
      (dedupGenerateKey req.userId (eventTypeName req.eventType) req.eventSourceId)
      (env1.nowMs / 1000) = none)
    (hwin : 0 < (EVENT_TYPE_CONFIGS req.eventType).dedupWindowMs)
    (ht1 : env1.nowMs / 1000 ≤ env2.nowMs / 1000)
    (ht2 : env2.nowMs / 1000 < env1.nowMs / 1000 +
      ((EVENT_TYPE_CONFIGS req.eventType).dedupWindowMs + 999) / 1000) :
    (route env2 (route env1 st req n1 p).2 req2 n2 p2).1.results = [] ∧
    (route env2 (route env1 st req n1 p).2 req2 n2 p2).1.skippedChannels =
      [(.websocket, "Duplicate notification")] ∧
    (route env2 (route env1 st req n1 p).2 req2 n2 p2).1.queued = false ∧
    (route env2 (route env1 st req n1 p).2 req2 n2 p2).1.digestQueued = false ∧
    (route env2 (route env1 st req n1 p).2 req2 n2 p2).2 = (route env1 st req n1 p).2 ∧
    dedupGet (route env1 st req n1 p).2.dedup
      (dedupGenerateKey req.userId (eventTypeName req.eventType) req.eventSourceId)
      (env2.nowMs / 1000) =
      some ⟨n1, env1.nowMs / 1000, env1.nowMs / 1000 +
        ((EVENT_TYPE_CONFIGS req.eventType).dedupWindowMs + 999) / 1000⟩ := by
  have hreg := route_registers env1 st req n1 p henv1 hfresh (by omega)
  have hget : dedupGet (route env1 st req n1 p).2.dedup
      (dedupGenerateKey req.userId (eventTypeName req.eventType) req.eventSourceId)
      (env2.nowMs / 1000) =
      some ⟨n1, env1.nowMs / 1000, env1.nowMs / 1000 +
        ((EVENT_TYPE_CONFIGS req.eventType).dedupWindowMs + 999) / 1000⟩ := by
    rw [hreg]
    simp [dedupGet, ht2]
  have hcm2 : checkAndMark env2.dedupOk (route env1 st req n1 p).2.dedup req2.userId
      (eventTypeName req2.eventType) req2.eventSourceId n2
      (EVENT_TYPE_CONFIGS req2.eventType).dedupWindowMs (env2.nowMs / 1000) =
      ({ isDuplicate := true, originalNotificationId := some n1 },
       (route env1 st req n1 p).2.dedup) := by
    rw [checkAndMark, henv2]
    simp only [Bool.not_true, Bool.false_eq_true, if_false]
    rw [hu, he, hs, hget]
  refine ⟨?_, ?_, ?_, ?_, ?_, hget⟩ <;>
    · generalize hst1 : (route env1 st req n1 p).2 = st1 at hcm2 ⊢
      unfold route
      simp only [hcm2]
      rw [if_pos trivial]

/-- A transfer-completed request (5-minute dedup window). -/
def dupReq : NotificationRequest :=
  { userId := "user-dd", eventType := .transfer_completed
    title := "Transfer Complete".data, message := "Funds arrived".data
    eventSourceId := some "tx-5", priority := none, correlationId := none }

/-- Witness: re-routing the same transfer within the window is refused
with the fixed duplicate skip and changes nothing. -/
theorem route_duplicate_second_call_witness :
    (route qhEnv (route qhEnv emptySysState dupReq "note-first"
        (defaultPrefs "user-dd")).2 dupReq "note-second"
        (defaultPrefs "user-dd")).1.skippedChannels =
      [(.websocket, "Duplicate notification")] ∧
    (route qhEnv (route qhEnv emptySysState dupReq "note-first"
        (defaultPrefs "user-dd")).2 dupReq "note-second"
        (defaultPrefs "user-dd")).1.results = [] ∧
    (route qhEnv (route qhEnv emptySysState dupReq "note-first"
        (defaultPrefs "user-dd")).2 dupReq "note-second" (defaultPrefs "user-dd")).2 =
      (route qhEnv emptySysState dupReq "note-first" (defaultPrefs "user-dd")).2 := by
  have H := route_duplicate_second_call qhEnv qhEnv emptySysState dupReq dupReq
    "note-first" "note-second" (defaultPrefs "user-dd") (defaultPrefs "user-dd")
    rfl rfl rfl rfl rfl rfl (by decide) (by omega) (by decide)
  exact ⟨H.2.1, H.1, H.2.2.2.2.1⟩

/-- Counterexample to C3 as stated: the second call's single skip entry
has the fixed reason "Duplicate notification"; it does not name the
original notification id "note-first" (which only the dedup store entry
and the log carry). -/
theorem route_duplicate_skip_names_no_id_counterexample :
    (route qhEnv (route qhEnv emptySysState dupReq "note-first"
        (defaultPrefs "user-dd")).2 dupReq "note-second"
        (defaultPrefs "user-dd")).1.skippedChannels =
      [(.websocket, "Duplicate notification")] ∧
    strContains "Duplicate notification" "note-first" = false := by
  constructor
  · rfl
  · decide
